import Mathlib

/-!
Verification of the Dependent Selection and Fee Reconciliation Engine of the
expired-memberships renewal screen (src/Frontend/src/pages/ExpiredMemberships.tsx).

The React component state and its update logic are shallowly embedded as pure
Lean functions over explicit state records.  JavaScript numbers are modelled as
rationals; a nullable numeric field is an `Option Int` (or `Option ℚ`), with
JavaScript truthiness made explicit (null, undefined and 0 are falsy).  The
result of `parseFloat` on a text input is modelled as an `Option ℚ`, `none`
standing for NaN (an unparseable input).  Network fetch results (seat lists,
locker lists, available-shift id lists) are passed to the transition functions
as explicit arguments, so each reactive effect of the component becomes a pure
state-transition function of the state and the data the effect fetched.
-/

/-- A react-select option as used for branch, seat and locker dropdowns:
`value` is a nullable id (the synthetic "None" head option has a null value),
`label` is display text. -/
structure SelectOption where
  value : Option Int
  label : String
  deriving DecidableEq

/-- A shift option as built from the schedules catalog (lines 155-159):
`value` is the shift id, `fee` its nominal fee, `isDisabled` the eligibility
flag maintained by the seat-dependent availability effect. -/
structure ShiftOption where
  value : Int
  label : String
  fee : ℚ
  isDisabled : Bool
  deriving DecidableEq

/-- The `Seat` interface (lines 63-67): `studentId` is the occupant, absent or
null when the seat is free. -/
structure Seat where
  id : Int
  seatNumber : String
  studentId : Option Int
  deriving DecidableEq

/-- The `Locker` interface (lines 82-87). -/
structure Locker where
  id : Int
  lockerNumber : String
  isAssigned : Bool
  studentId : Option Int
  deriving DecidableEq

/-- One element of `Student.assignments` (lines 48-53): a current seat-and-shift
occupancy of the student being renewed. -/
structure Assignment where
  seatId : Int
  shiftId : Int
  seatNumber : String
  shiftTitle : String
  deriving DecidableEq

/-- JavaScript truthiness of a nullable numeric id: null, undefined and 0 are
falsy, every other number is truthy. -/
def jsTruthyId : Option Int → Bool
  | none => false
  | some n => n != 0

/-- The synthetic head option `{ value: null, label: 'None' }` placed before
the seat and locker option lists (lines 206, 213, 225, 226). -/
def noneChoice : SelectOption := ⟨none, "None"⟩

/-- Line 204: `allSeats.filter(seat => !seat.studentId || seat.studentId === selectedStudent.id)` —
the offerable seats for the branch, given the subject student id. -/
def availableSeats (allSeats : List Seat) (subjectId : Int) : List Seat :=
  allSeats.filter (fun seat => !jsTruthyId seat.studentId || seat.studentId == some subjectId)

/-- Lines 205-208: the seat option list, a "None" head followed by the
offerable seats. -/
def seatOptionsFor (allSeats : List Seat) (subjectId : Int) : List SelectOption :=
  noneChoice :: (availableSeats allSeats subjectId).map (fun seat => ⟨some seat.id, seat.seatNumber⟩)

/-- Line 211: `allLockerItems.filter(locker => !locker.isAssigned || locker.studentId === selectedStudent.id)`. -/
def availableLockers (allLockers : List Locker) (subjectId : Int) : List Locker :=
  allLockers.filter (fun locker => !locker.isAssigned || locker.studentId == some subjectId)

/-- Lines 212-215: the locker option list, a "None" head followed by the
offerable lockers. -/
def lockerOptionsFor (allLockers : List Locker) (subjectId : Int) : List SelectOption :=
  noneChoice :: (availableLockers allLockers subjectId).map (fun locker => ⟨some locker.id, locker.lockerNumber⟩)

/-- Whether `sep` is a prefix of `cs` (character-level, used to model the
JavaScript `String.prototype.split` separator search). -/
def listStartsWith : List Char → List Char → Bool
  | [], _ => true
  | _ :: _, [] => false
  | s :: ss, c :: cs => s == c && listStartsWith ss cs

/-- The characters before the first occurrence of `sep` (the whole list when
`sep` does not occur): models `label.split(sep)[0]` for a non-empty `sep`. -/
def charsBeforeSep (sep : List Char) : List Char → List Char
  | [] => []
  | c :: cs => if listStartsWith sep (c :: cs) then [] else c :: charsBeforeSep sep cs

/-- Line 252: the part of a shift label before the first `" - "`, that is
`shift.label.split(' - ')[0]`. -/
def labelHead (label : String) : String :=
  ⟨charsBeforeSep (" - ".data) label.data⟩

/-- Lines 245-254 of `fetchAvailableShiftsForSeat`: given the catalog
`allShifts`, the shift ids the availability endpoint reported free for the
seat, and the student's current assignments, build the new shift option list.
The eligible id set is the union of the fetched free ids and the assignment
shift ids (`studentCurrentShiftIds.forEach(id => availableShiftIds.add(id))`);
each catalog shift is annotated and disabled exactly when its id is outside
that union. -/
def fetchAvailableShiftsResult (allShifts : List ShiftOption) (fetchedIds : List Int)
    (assignments : List Assignment) : List ShiftOption :=
  let availableShiftIds := fetchedIds ++ assignments.map (fun a => a.shiftId)
  allShifts.map (fun shift =>
    { shift with
      label := labelHead shift.label ++
        (if availableShiftIds.contains shift.value then " (Available)" else " (Assigned)"),
      isDisabled := !(availableShiftIds.contains shift.value) })

/-- The renewal dialog selection state: the component state fields that the
branch, seat, shift and locker selections and their option lists live in
(lines 120-129). -/
structure RenewalSelection where
  selectedBranch : Option SelectOption
  selectedSeat : Option SelectOption
  selectedLocker : Option SelectOption
  selectedShifts : List ShiftOption
  allShifts : List ShiftOption
  shiftOptions : List ShiftOption
  seatOptions : List SelectOption
  lockerOptions : List SelectOption
  deriving DecidableEq

/-- JavaScript truthiness of `opt?.value` for an optional select option whose
`value` is a nullable id. -/
def optionValueTruthy : Option SelectOption → Bool
  | none => false
  | some o => jsTruthyId o.value

/-- Lines 236-257, the body of the `fetchAvailableShiftsForSeat` effect as a
state transition.  When `!selectedSeat?.value` every catalog shift is offered
enabled and the chosen set is left untouched (lines 237-241); otherwise the
new option list is computed from the fetched free ids merged with the current
assignments, and the chosen shift set is filtered to the ids in that union
(line 257). -/
def shiftsEffect (st : RenewalSelection) (assignments : List Assignment)
    (fetchedIds : List Int) : RenewalSelection :=
  if !optionValueTruthy st.selectedSeat then
    { st with shiftOptions := st.allShifts.map (fun s => { s with isDisabled := false }) }
  else
    let availableShiftIds := fetchedIds ++ assignments.map (fun a => a.shiftId)
    { st with
      shiftOptions := fetchAvailableShiftsResult st.allShifts fetchedIds assignments,
      selectedShifts := st.selectedShifts.filter (fun s => availableShiftIds.contains s.value) }

/-- The full seat-change transition: the seat select `onChange` handler
(lines 599-602) sets the seat and resets the chosen shifts to `[]`, after
which the `fetchAvailableShiftsForSeat` effect (lines 235-268) re-resolves
shift eligibility for the new seat. -/
def setSeat (st : RenewalSelection) (choice : Option SelectOption)
    (assignments : List Assignment) (fetchedIds : List Int) : RenewalSelection :=
  shiftsEffect { st with selectedSeat := choice, selectedShifts := [] } assignments fetchedIds

/-- Lines 194-228, the body of the `fetchBranchSpecificData` effect as a state
transition: when the selected branch has a truthy id and a subject student is
present, the seat and locker option lists are rebuilt from the fetched branch
data; otherwise both collapse to the lone "None" option.  The current seat and
locker selections are never written by this effect. -/
def branchEffect (st : RenewalSelection) (subject : Option Int)
    (fetchedSeats : List Seat) (fetchedLockers : List Locker) : RenewalSelection :=
  match subject with
  | some sid =>
      if optionValueTruthy st.selectedBranch then
        { st with
          seatOptions := seatOptionsFor fetchedSeats sid,
          lockerOptions := lockerOptionsFor fetchedLockers sid }
      else
        { st with seatOptions := [noneChoice], lockerOptions := [noneChoice] }
  | none => { st with seatOptions := [noneChoice], lockerOptions := [noneChoice] }

/-- The full branch-change transition: the branch select `onChange` handler is
`setSelectedBranch` alone (line 590), after which the `fetchBranchSpecificData`
effect re-resolves the seat and locker option lists. -/
def setBranch (st : RenewalSelection) (choice : Option SelectOption) (subject : Option Int)
    (fetchedSeats : List Seat) (fetchedLockers : List Locker) : RenewalSelection :=
  branchEffect { st with selectedBranch := choice } subject fetchedSeats fetchedLockers

/-- The ids of the shift options currently marked eligible (not disabled). -/
def eligibleValues (opts : List ShiftOption) : List Int :=
  (opts.filter (fun t => !t.isDisabled)).map (fun t => t.value)

/-- Lines 271-279, the fee auto-calculation effect: when exactly one shift is
chosen, the fee is looked up by id in the `allShifts` catalog
(`allShifts.find(shift => shift.value === selectedShifts[0].value)`, defaulting
to 0 when absent) and `totalFee` becomes its string; otherwise `totalFee`
becomes `"0"`. -/
def computeTotalFee (allShifts selectedShifts : List ShiftOption) : String :=
  match selectedShifts with
  | [s] =>
      let shiftFee : ℚ :=
        match allShifts.find? (fun shift => shift.value == s.value) with
        | some detail => detail.fee
        | none => 0
      toString shiftFee
  | _ => "0"

/-- Line 400: `isFeeReadOnly = selectedShifts.length === 1`. -/
def isFeeReadOnly (selectedShifts : List ShiftOption) : Bool :=
  selectedShifts.length == 1

/-- `x || 0` applied to a parseFloat result: NaN (`none`) and 0 collapse to 0,
every other number passes through (lines 374, 377-379, 395-399). -/
def jsNumOr0 : Option ℚ → ℚ
  | none => 0
  | some v => if v = 0 then 0 else v

/-- `parseFloat(x) || undefined` (line 375): NaN and 0 collapse to undefined. -/
def jsNumOrUndef : Option ℚ → Option ℚ
  | none => none
  | some v => if v = 0 then none else some v

/-- Lines 395-397: `paid = (parseFloat(cash) || 0) + (parseFloat(online) || 0)`. -/
def paidAmount (cash online : Option ℚ) : ℚ :=
  jsNumOr0 cash + jsNumOr0 online

/-- Lines 398-399: `due = (parseFloat(totalFee) || 0) - (parseFloat(discount) || 0) - paid`. -/
def dueAmount (totalFee discount cash online : Option ℚ) : ℚ :=
  jsNumOr0 totalFee - jsNumOr0 discount - paidAmount cash online

/-- `String.prototype.trim`: whitespace stripped from both ends. -/
def jsTrim (s : String) : String :=
  ⟨((s.data.dropWhile Char.isWhitespace).reverse.dropWhile Char.isWhitespace).reverse⟩

/-- `s || undefined` for a string: the empty string collapses to undefined. -/
def jsStrOrUndef (s : String) : Option String :=
  if s = "" then none else some s

/-- The renewal form state the submit handler reads (lines 110-137 and 103).
Text fields are strings; the date pickers are modelled by their formatted
value when set; each numeric text input is carried together with the result of
`parseFloat` on it (`…Num`, `none` for NaN). -/
structure RenewForm where
  selectedStudent : Option Int
  startDate : Option String
  endDate : Option String
  nameInput : String
  registrationNumberInput : String
  fatherNameInput : String
  aadharNumberInput : String
  addressInput : String
  emailInput : String
  phoneInput : String
  selectedBranch : Option SelectOption
  selectedSeat : Option SelectOption
  selectedLocker : Option SelectOption
  selectedShifts : List ShiftOption
  totalFee : String
  totalFeeNum : Option ℚ
  discountNum : Option ℚ
  cashNum : Option ℚ
  onlineNum : Option ℚ
  securityMoneyNum : Option ℚ
  lockerFeeNum : Option ℚ
  remark : String
  renewDialogOpen : Bool
  deriving DecidableEq

/-- The payload of `api.renewStudent` as built at lines 361-380. -/
structure RenewPayload where
  name : String
  registrationNumber : String
  fatherName : String
  aadharNumber : String
  address : String
  membershipStart : String
  membershipEnd : String
  email : String
  phone : String
  branchId : Option Int
  shiftIds : List Int
  seatId : Option Int
  lockerId : Option Int
  lockerFee : ℚ
  discount : Option ℚ
  totalFee : Option ℚ
  cash : ℚ
  online : ℚ
  securityMoney : ℚ
  remark : Option String
  deriving DecidableEq

/-- Lines 361-380: the renewal payload built from the form.  `discount` uses
`parseFloat(discount) || undefined`; `lockerFee`, `cash`, `online` and
`securityMoney` use `parseFloat(…) || 0`; `totalFee` is the raw `parseFloat`
result. -/
def buildRenewPayload (f : RenewForm) : RenewPayload :=
  { name := f.nameInput
    registrationNumber := f.registrationNumberInput
    fatherName := f.fatherNameInput
    aadharNumber := f.aadharNumberInput
    address := f.addressInput
    membershipStart := f.startDate.getD ""
    membershipEnd := f.endDate.getD ""
    email := f.emailInput
    phone := f.phoneInput
    branchId := match f.selectedBranch with | some b => b.value | none => none
    shiftIds := f.selectedShifts.map (fun s => s.value)
    seatId := match f.selectedSeat with | some s => s.value | none => none
    lockerId := match f.selectedLocker with | some l => l.value | none => none
    lockerFee := jsNumOr0 f.lockerFeeNum
    discount := jsNumOrUndef f.discountNum
    totalFee := f.totalFeeNum
    cash := jsNumOr0 f.cashNum
    online := jsNumOr0 f.onlineNum
    securityMoney := jsNumOr0 f.securityMoneyNum
    remark := jsStrOrUndef (jsTrim f.remark) }

/-- The observable outcome of pressing "Renew Membership": either the
validation toast with no network call, or one `api.renewStudent` call with the
built payload. -/
inductive RenewOutcome where
  | validationError
  | renewCall (studentId : Int) (payload : RenewPayload)
  deriving DecidableEq

/-- Lines 350-354, the submit guard:
`!selectedStudent || !startDate || !endDate || !nameInput.trim() || !phoneInput.trim() ||
!addressInput.trim() || !totalFee || !selectedBranch?.value || selectedShifts.length === 0`. -/
def renewValidationFails (f : RenewForm) : Bool :=
  f.selectedStudent.isNone || f.startDate.isNone || f.endDate.isNone ||
  jsTrim f.nameInput == "" || jsTrim f.phoneInput == "" || jsTrim f.addressInput == "" ||
  f.totalFee == "" || !optionValueTruthy f.selectedBranch || f.selectedShifts.length == 0

/-- Lines 349-393, `handleRenewSubmit` as a pure step: on validation failure it
shows the error toast and returns with the form untouched and no call issued;
otherwise it issues the `renewStudent` call and closes the dialog (line 384). -/
def handleRenewSubmit (f : RenewForm) : RenewForm × RenewOutcome :=
  if renewValidationFails f then (f, RenewOutcome.validationError)
  else
    match f.selectedStudent with
    | some sid => ({ f with renewDialogOpen := false }, RenewOutcome.renewCall sid (buildRenewPayload f))
    | none => (f, RenewOutcome.validationError)

/-- A concrete dialog state with a seat and a locker selected, used to
exercise the branch-change transition. -/
def exC1State : RenewalSelection :=
  { selectedBranch := some ⟨some 1, "B1"⟩
    selectedSeat := some ⟨some 4, "S4"⟩
    selectedLocker := some ⟨some 9, "L9"⟩
    selectedShifts := []
    allShifts := []
    shiftOptions := []
    seatOptions := [noneChoice]
    lockerOptions := [noneChoice] }

/-- A concrete dialog state with one chosen shift (id 1), used to exercise the
seat-change transition. -/
def exC2State : RenewalSelection :=
  { selectedBranch := some ⟨some 1, "B1"⟩
    selectedSeat := some ⟨some 4, "S4"⟩
    selectedLocker := none
    selectedShifts := [⟨1, "Morning (Available)", 100, false⟩]
    allShifts := [⟨1, "Morning - [Fee: 100]", 100, false⟩]
    shiftOptions := [⟨1, "Morning (Available)", 100, false⟩]
    seatOptions := [noneChoice, ⟨some 4, "S4"⟩, ⟨some 3, "S3"⟩]
    lockerOptions := [noneChoice] }

/-- A one-shift catalog for the eligibility-merge witness. -/
def exC3Catalog : List ShiftOption := [⟨2, "Night - [Fee: 200]", 200, false⟩]

/-- A current assignment on shift 2 (on some other seat). -/
def exC3Assignments : List Assignment := [⟨7, 2, "S0", "Night"⟩]

/-- A catalog shift with id 5 and fee 300, for the fee-calculation witness. -/
def exC5Shift : ShiftOption := ⟨5, "Evening - [Fee: 300]", 300, false⟩

/-- A renewal form that is fully filled except that no shift is chosen. -/
def exC8Form : RenewForm :=
  { selectedStudent := some 7
    startDate := some "2025-01-01"
    endDate := some "2025-02-01"
    nameInput := "Asha"
    registrationNumberInput := "R-12"
    fatherNameInput := ""
    aadharNumberInput := ""
    addressInput := "Pune"
    emailInput := "a@b.c"
    phoneInput := "9999999999"
    selectedBranch := some ⟨some 1, "B1"⟩
    selectedSeat := none
    selectedLocker := none
    selectedShifts := []
    totalFee := "300"
    totalFeeNum := some 300
    discountNum := some 0
    cashNum := some 0
    onlineNum := some 0
    securityMoneyNum := some 0
    lockerFeeNum := some 0
    remark := ""
    renewDialogOpen := true }

/-- A renewal form whose discount parses to 0 and whose cash, online, security
and locker-fee inputs all parse to 0. -/
def exC9Form : RenewForm :=
  { selectedStudent := some 7
    startDate := some "2025-01-01"
    endDate := some "2025-02-01"
    nameInput := "Asha"
    registrationNumberInput := ""
    fatherNameInput := ""
    aadharNumberInput := ""
    addressInput := "Pune"
    emailInput := ""
    phoneInput := "9999999999"
    selectedBranch := some ⟨some 1, "B1"⟩
    selectedSeat := some ⟨some 4, "S4"⟩
    selectedLocker := none
    selectedShifts := [⟨5, "Evening (Available)", 300, false⟩]
    totalFee := "300"
    totalFeeNum := some 300
    discountNum := some 0
    cashNum := some 0
    onlineNum := some 0
    securityMoneyNum := some 0
    lockerFeeNum := some 0
    remark := ""
    renewDialogOpen := true }

/-- A one-shift catalog that does not contain shift id 5. -/
def exC10Catalog : List ShiftOption := [⟨1, "Morning - [Fee: 100]", 100, false⟩]

/-- A helper: both branches of `setSeat` leave the chosen shift set that the
seat `onChange` handler just reset, so it ends empty. -/
theorem setSeat_selectedShifts_eq_nil (st : RenewalSelection) (choice : Option SelectOption)
    (assignments : List Assignment) (fetchedIds : List Int) :
    (setSeat st choice assignments fetchedIds).selectedShifts = [] := by
  unfold setSeat shiftsEffect
  split
  · rfl
  · simp

/-- Claim C1, counterexample: the branch-change transition does not reset the
seat or locker selection.  Starting from a state whose seat selection is S4
and whose locker selection is L9, choosing branch B2 leaves both selections
non-null, refuting "setBranch sets the current seat selection to null and the
current locker selection to null". -/
theorem setBranch_keeps_stale_seat_locker_cex :
    (setBranch exC1State (some ⟨some 2, "B2"⟩) (some 7) [] []).selectedSeat ≠ none ∧
    (setBranch exC1State (some ⟨some 2, "B2"⟩) (some 7) [] []).selectedLocker ≠ none := by
  decide

/-- Claim C1, amended: for every renewal selection state, the setBranch
transition (the branch `onChange` handler followed by the
`fetchBranchSpecificData` effect) leaves the current seat selection and the
current locker selection unchanged; only the seat and locker option lists are
re-resolved. -/
theorem setBranch_preserves_seat_and_locker (st : RenewalSelection)
    (choice : Option SelectOption) (subject : Option Int)
    (fetchedSeats : List Seat) (fetchedLockers : List Locker) :
    (setBranch st choice subject fetchedSeats fetchedLockers).selectedSeat = st.selectedSeat ∧
    (setBranch st choice subject fetchedSeats fetchedLockers).selectedLocker = st.selectedLocker := by
  unfold setBranch branchEffect
  cases subject
  · exact ⟨rfl, rfl⟩
  · dsimp only
    split
    · exact ⟨rfl, rfl⟩
    · exact ⟨rfl, rfl⟩

/-- Claim C2, counterexample: starting from a state whose chosen shift set is
the singleton shift 1, performing setSeat to seat S3 with a live availability
answer that still lists shift 1 as free yields an empty chosen set, even
though filtering the previous chosen set to the newly eligible ids would have
kept shift 1 — refuting "every chosen shift that is still eligible for the new
seat remains in the selection". -/
theorem setSeat_drops_eligible_chosen_cex :
    (setSeat exC2State (some ⟨some 3, "S3"⟩) [] [1]).selectedShifts = [] ∧
    exC2State.selectedShifts.filter
      (fun s => (([1] : List Int) ++ ([] : List Assignment).map (fun a => a.shiftId)).contains s.value)
      = exC2State.selectedShifts ∧
    exC2State.selectedShifts ≠ [] := by
  decide

/-- Claim C2, amended: the setSeat transition empties the chosen shift set.
The seat `onChange` handler resets the selection to `[]` before the
eligibility recomputation runs, and the subsequent filter to the eligible
subset acts on that empty set, so after every setSeat transition the chosen
shift set is empty regardless of which previously chosen shifts would still
have been eligible. -/
theorem setSeat_empties_chosen_shifts (st : RenewalSelection) (choice : Option SelectOption)
    (assignments : List Assignment) (fetchedIds : List Int) :
    (setSeat st choice assignments fetchedIds).selectedShifts = [] :=
  setSeat_selectedShifts_eq_nil st choice assignments fetchedIds

/-- Claim C3: in the shift option list produced for a seat, an option is
marked eligible (not disabled) exactly when its id is in the union of the
fetched free-shift ids and the shift ids of the student's current
assignments; in particular every assignment shift id is eligible even when
the live availability answer omits it. -/
theorem eligible_iff_fetched_or_assigned (allShifts : List ShiftOption)
    (fetchedIds : List Int) (assignments : List Assignment) (opt : ShiftOption)
    (hmem : opt ∈ fetchAvailableShiftsResult allShifts fetchedIds assignments) :
    (opt.isDisabled = false ↔
      (opt.value ∈ fetchedIds ∨ opt.value ∈ assignments.map (fun a => a.shiftId))) := by
  unfold fetchAvailableShiftsResult at hmem
  simp only [List.mem_map] at hmem
  obtain ⟨shift, hshift, rfl⟩ := hmem
  simp only [List.mem_append]
  by_cases hcase : shift.value ∈ fetchedIds ++ assignments.map (fun a => a.shiftId) <;>
    simp [List.mem_append] at hcase ⊢ <;> tauto

/-- Claim C3, witness: with catalog shift 2, fetched free ids {1, 3} missing
shift 2, and a current assignment on shift 2, the produced option for shift 2
is eligible. -/
theorem eligible_iff_fetched_or_assigned_witness :
    ((⟨2, "Night (Available)", 200, false⟩ : ShiftOption).isDisabled = false ↔
      ((⟨2, "Night (Available)", 200, false⟩ : ShiftOption).value ∈ ([1, 3] : List Int) ∨
       (⟨2, "Night (Available)", 200, false⟩ : ShiftOption).value ∈
         exC3Assignments.map (fun a => a.shiftId))) :=
  eligible_iff_fetched_or_assigned exC3Catalog [1, 3] exC3Assignments
    ⟨2, "Night (Available)", 200, false⟩ (by decide)

/-- Claim C4, counterexample: a seat whose occupant field holds the id 0 is
kept by the offerable-seat filter for subject student 7, although its
occupant is neither null nor equal to the subject — the JavaScript check
`!seat.studentId` treats the occupant id 0 as falsy, refuting "a seat appears
in the offerable-seats option list if and only if it has no occupant or its
occupant equals the subject student id". -/
theorem zero_occupant_seat_offered_cex :
    (⟨1, "A1", some 0⟩ : Seat) ∈ availableSeats [⟨1, "A1", some 0⟩] 7 ∧
    ¬((⟨1, "A1", some 0⟩ : Seat).studentId = none ∨
      (⟨1, "A1", some 0⟩ : Seat).studentId = some 7) := by
  decide

/-- Claim C4, amended: a seat is kept by the offerable-seat filter if and only
if it is one of the fetched seats and its occupant field is null, is the id 0
(which the code's falsiness check conflates with "no occupant"), or equals the
subject student id; every seat occupied by a different student with a nonzero
id is excluded. -/
theorem availableSeats_mem_iff (allSeats : List Seat) (subjectId : Int) (s : Seat) :
    s ∈ availableSeats allSeats subjectId ↔
      s ∈ allSeats ∧
        (s.studentId = none ∨ s.studentId = some 0 ∨ s.studentId = some subjectId) := by
  unfold availableSeats
  rw [List.mem_filter]
  rcases h : s.studentId with _ | n <;> simp [jsTruthyId, h, Bool.or_eq_true]

/-- Claim C5: the fee recomputation makes the membership-fee field read-only
exactly when the chosen shift set has size one; when it has size one and the
chosen id is found in the shift catalog, `totalFee` is set to the string of
that catalog entry's fee; whenever the chosen count is not one, `totalFee` is
set to "0" (and the field is editable, by the first part). -/
theorem feeCalc_spec (allShifts sel : List ShiftOption) :
    (isFeeReadOnly sel = true ↔ sel.length = 1) ∧
    (∀ s detail, sel = [s] →
        allShifts.find? (fun shift => shift.value == s.value) = some detail →
        computeTotalFee allShifts sel = toString detail.fee) ∧
    (sel.length ≠ 1 → computeTotalFee allShifts sel = "0") := by
  refine ⟨?_, ?_, ?_⟩
  · simp [isFeeReadOnly]
  · rintro s detail rfl hfind
    simp [computeTotalFee, hfind]
  · intro h
    match sel with
    | [] => rfl
    | [s] => exact absurd rfl h
    | a :: b :: rest => rfl

/-- Claim C5, witness: with the single chosen shift 5 of catalog fee 300, the
field is read-only and the fee is "300"; with no chosen shift the fee is "0". -/
theorem feeCalc_spec_witness :
    isFeeReadOnly [exC5Shift] = true ∧
    computeTotalFee [exC5Shift] [exC5Shift] = "300" ∧
    computeTotalFee [exC5Shift] [] = "0" :=
  ⟨(feeCalc_spec [exC5Shift] [exC5Shift]).1.mpr rfl,
   ((feeCalc_spec [exC5Shift] [exC5Shift]).2.1 exC5Shift exC5Shift rfl (by decide)).trans
     (by decide),
   (feeCalc_spec [exC5Shift] []).2.2 (by decide)⟩

/-- Claim C6: for every combination of numeric inputs (each an optional
rational, `none` for an unparseable input, all treated as 0 when missing),
`paid = cash + online` and `due = totalFee - discount - (cash + online)`;
the due amount is not clamped and can be negative, as witnessed by concrete
inputs, and the worked scenario 500/50/200/100 gives due 150. -/
theorem derived_paid_due_spec :
    (∀ cash online : Option ℚ, paidAmount cash online = jsNumOr0 cash + jsNumOr0 online) ∧
    (∀ totalFee discount cash online : Option ℚ,
        dueAmount totalFee discount cash online =
          jsNumOr0 totalFee - jsNumOr0 discount - (jsNumOr0 cash + jsNumOr0 online)) ∧
    jsNumOr0 none = 0 ∧
    dueAmount (some 500) (some 50) (some 200) (some 100) = 150 ∧
    dueAmount (some 100) (some 0) (some 150) none < 0 := by
  refine ⟨fun _ _ => rfl, fun _ _ _ _ => rfl, rfl, ?_, ?_⟩
  · norm_num [dueAmount, paidAmount, jsNumOr0]
  · norm_num [dueAmount, paidAmount, jsNumOr0]

/-- Claim C7: after any setSeat transition completes (seat `onChange` followed
by the shift-eligibility recomputation), every member of the chosen shift set
has its id among the ids of the shift options marked eligible — for every
starting state, seat choice and live eligibility answer. -/
theorem setSeat_chosen_subset_eligible (st : RenewalSelection) (choice : Option SelectOption)
    (assignments : List Assignment) (fetchedIds : List Int) :
    ((setSeat st choice assignments fetchedIds).selectedShifts.all
      (fun s =>
        (eligibleValues (setSeat st choice assignments fetchedIds).shiftOptions).contains
          s.value)) = true := by
  rw [setSeat_selectedShifts_eq_nil]
  rfl

/-- Claim C8: whenever the chosen shift set is empty, or the trimmed name,
phone or address is empty, or the total-fee text is empty, or no branch with a
truthy id is selected, the submit handler reports the validation error and
returns with the form unchanged and no `renewStudent` call issued. -/
theorem submit_validation_blocks (f : RenewForm)
    (h : f.selectedShifts = [] ∨ jsTrim f.nameInput = "" ∨ jsTrim f.phoneInput = "" ∨
      jsTrim f.addressInput = "" ∨ f.totalFee = "" ∨
      optionValueTruthy f.selectedBranch = false) :
    handleRenewSubmit f = (f, RenewOutcome.validationError) := by
  have hv : renewValidationFails f = true := by
    unfold renewValidationFails
    rcases h with h | h | h | h | h | h <;> simp [h]
  unfold handleRenewSubmit
  simp [hv]

/-- Claim C8, witness: a fully filled form with an empty chosen shift set is
rejected with the validation error and the form is returned unchanged. -/
theorem submit_validation_blocks_witness :
    handleRenewSubmit exC8Form = (exC8Form, RenewOutcome.validationError) :=
  submit_validation_blocks exC8Form (Or.inl rfl)

/-- Claim C9: when the discount input parses to 0 or is unparseable, the
renewal payload carries no discount field (`parseFloat(discount) || undefined`
collapses both to undefined), while cash, online, security-money and
locker-fee inputs parsing to 0 are sent as the number 0. -/
theorem payload_zero_handling (f : RenewForm)
    (hd : f.discountNum = none ∨ f.discountNum = some 0)
    (hc : f.cashNum = some 0) (ho : f.onlineNum = some 0)
    (hs : f.securityMoneyNum = some 0) (hl : f.lockerFeeNum = some 0) :
    (buildRenewPayload f).discount = none ∧ (buildRenewPayload f).cash = 0 ∧
    (buildRenewPayload f).online = 0 ∧ (buildRenewPayload f).securityMoney = 0 ∧
    (buildRenewPayload f).lockerFee = 0 := by
  unfold buildRenewPayload
  rcases hd with hd | hd <;> simp [hd, hc, ho, hs, hl, jsNumOrUndef, jsNumOr0]

/-- Claim C9, witness: on a form whose discount, cash, online, security and
locker-fee inputs all parse to 0, the payload omits discount and sends the
other four as 0. -/
theorem payload_zero_handling_witness :
    (buildRenewPayload exC9Form).discount = none ∧ (buildRenewPayload exC9Form).cash = 0 ∧
    (buildRenewPayload exC9Form).online = 0 ∧
    (buildRenewPayload exC9Form).securityMoney = 0 ∧
    (buildRenewPayload exC9Form).lockerFee = 0 :=
  payload_zero_handling exC9Form (Or.inr rfl) rfl rfl rfl rfl

/-- Claim C10: when exactly one shift is chosen but its id is absent from the
loaded shift catalog, the fee recomputation sets `totalFee` to "0" — the fee
is looked up in the catalog by id and the chosen option's own fee field is
ignored. -/
theorem feeCalc_catalog_miss (allShifts : List ShiftOption) (s : ShiftOption)
    (h : allShifts.find? (fun shift => shift.value == s.value) = none) :
    computeTotalFee allShifts [s] = "0" := by
  simp only [computeTotalFee, h]
  decide

/-- Claim C10, witness: the chosen option has id 5 and carries fee 300, the
catalog holds only shift 1, and the recomputed fee is "0". -/
theorem feeCalc_catalog_miss_witness :
    computeTotalFee exC10Catalog [⟨5, "Evening", 300, false⟩] = "0" :=
  feeCalc_catalog_miss exC10Catalog ⟨5, "Evening", 300, false⟩ (by decide)
